import Mathlib

/-!
Shallow embedding of the otak-screensaver VS Code extension
(src/extension.ts) and verification of its specification claims.

The extension's logic is a small single-threaded controller: an idle
timer, an "ignore window" timestamp suppressing self-inflicted activity
events, at most one webview panel, and an optional keep-alive interval.
All mutable variables live in the closure of `activate`; we model them as
fields of an explicit state record, and each callback of the source as a
pure state-transition function.  Configuration reads go through typed
accessors that are re-read at every decision point; we model the live
configuration store as an explicit `Env` argument.
-/

namespace OtakScreensaver

/-- Identifier of one of the three concrete screensaver animations
(TypeScript type `ScreenSaverId`). -/
inductive ScreenSaverId
  | beziers
  | mystify
  | flyingWindows
deriving DecidableEq, Repr

/-- Configured mode: a concrete animation or `random`
(TypeScript type `ScreenSaverMode`). -/
inductive ScreenSaverMode
  | id (i : ScreenSaverId)
  | random
deriving DecidableEq, Repr

/-- The fixed array `ids = ['beziers', 'mystify', 'flyingWindows']` used by
`resolveScreenSaver` for the random pick. -/
def SCREENSAVER_IDS : List ScreenSaverId :=
  [ScreenSaverId.beziers, ScreenSaverId.mystify, ScreenSaverId.flyingWindows]

/-- The constant `INTERNAL_ACTIVITY_IGNORE_MS = 500`. -/
def INTERNAL_ACTIVITY_IGNORE_MS : Nat := 500

/-- The constant `CODESPACES_KEEPALIVE_DEFAULT_INTERVAL_MINUTES = 3`. -/
def CODESPACES_KEEPALIVE_DEFAULT_INTERVAL_MINUTES : ℚ := 3

/-- The constant `SETTINGS_MIGRATION_VERSION = 1`. -/
def SETTINGS_MIGRATION_VERSION : Nat := 1

/-- The constant `WEBVIEW_ACTIVITY_MESSAGE_TYPE`. -/
def WEBVIEW_ACTIVITY_MESSAGE_TYPE : String := "otakScreensaver.userActivity"

/-- Value found in the configuration store for a numeric key, abstracting
JavaScript value dynamics: the key may be absent, hold a value of a
non-number runtime type, hold a non-finite number (NaN or an infinity), or
hold a finite number (modelled as a rational, which covers every finite
double exactly). -/
inductive NumSetting
  | missing
  | notNumber
  | nonFinite
  | num (q : ℚ)
deriving DecidableEq, Repr

/-- `getIdleMinutes`: reads `idleMinutes` with `config.get` default 5, then
returns 5 unless the stored value is a finite number strictly greater
than 0. -/
def getIdleMinutes (v : NumSetting) : ℚ :=
  match v with
  | NumSetting.missing => 5
  | NumSetting.notNumber => 5
  | NumSetting.nonFinite => 5
  | NumSetting.num q => if q ≤ 0 then 5 else q

/-- `getIdleMs`: `Math.max(1, getIdleMinutes()) * 60_000`. -/
def getIdleMs (v : NumSetting) : ℚ :=
  max 1 (getIdleMinutes v) * 60000

/-- `getCodespacesKeepAliveIntervalMinutes`: reads the interval with
default 3, then substitutes 3 unless the stored value is a finite number
strictly greater than 0. -/
def getCodespacesKeepAliveIntervalMinutes (v : NumSetting) : ℚ :=
  match v with
  | NumSetting.missing => CODESPACES_KEEPALIVE_DEFAULT_INTERVAL_MINUTES
  | NumSetting.notNumber => CODESPACES_KEEPALIVE_DEFAULT_INTERVAL_MINUTES
  | NumSetting.nonFinite => CODESPACES_KEEPALIVE_DEFAULT_INTERVAL_MINUTES
  | NumSetting.num q =>
      if q ≤ 0 then CODESPACES_KEEPALIVE_DEFAULT_INTERVAL_MINUTES else q

/-- `getCodespacesKeepAliveIntervalMs`:
`Math.max(1, getCodespacesKeepAliveIntervalMinutes()) * 60_000`. -/
def getCodespacesKeepAliveIntervalMs (v : NumSetting) : ℚ :=
  max 1 (getCodespacesKeepAliveIntervalMinutes v) * 60000

/-- `getConfiguredMode`: reads the raw `mode` string (default `random`) and
returns it when it is one of the four recognised values, else `random`. -/
def getConfiguredMode (raw : String) : ScreenSaverMode :=
  if raw = "beziers" then ScreenSaverMode.id ScreenSaverId.beziers
  else if raw = "mystify" then ScreenSaverMode.id ScreenSaverId.mystify
  else if raw = "flyingWindows" then ScreenSaverMode.id ScreenSaverId.flyingWindows
  else if raw = "random" then ScreenSaverMode.random
  else ScreenSaverMode.random

/-- `resolveScreenSaver(mode)`: a concrete mode is returned unchanged;
`random` picks `ids[Math.floor(Math.random() * ids.length)]`.  The value
produced by `Math.random()` is passed explicitly as `rand`, with the
runtime guarantee `0 ≤ rand < 1`; `List.getD` never hits its fallback on
that range. -/
def resolveScreenSaver (mode : ScreenSaverMode) (rand : ℚ) : ScreenSaverId :=
  match mode with
  | ScreenSaverMode.id i => i
  | ScreenSaverMode.random => SCREENSAVER_IDS.getD (Int.toNat ⌊rand * 3⌋) ScreenSaverId.beziers

/-- Live configuration / host-window environment observed by the controller
at one decision point.  Every accessor in the source re-reads the store, so
each transition function takes the `Env` current at that instant. -/
structure Env where
  autoStart : Bool
  focused : Bool
  modeRaw : String
  idleMinutesRaw : NumSetting
  keepAliveEnabled : Bool
  keepAliveIntervalRaw : NumSetting
  codespaces : Bool
deriving DecidableEq, Repr

/-- Mutable state held in the closure of `activate`: the current panel (with
the animation it displays), the pending idle timer (with the delay it was
armed for, in ms), the ignore-window timestamp `ignoreActivityUntil`, the
keep-alive interval handle (with its period), and the heartbeat in-flight
flag. -/
structure CtrlState where
  currentPanel : Option ScreenSaverId
  idleTimer : Option ℚ
  ignoreActivityUntil : Nat
  keepAliveTimer : Option ℚ
  sendingCodespacesKeepAlive : Bool
deriving DecidableEq, Repr

/-- `setIgnoreActivityFor(ms)`: `ignoreActivityUntil = Date.now() + ms`. -/
def setIgnoreActivityFor (now ms : Nat) (s : CtrlState) : CtrlState :=
  { s with ignoreActivityUntil := now + ms }

/-- `isIgnoringActivity()`: `Date.now() < ignoreActivityUntil`. -/
def isIgnoringActivity (now : Nat) (s : CtrlState) : Bool :=
  now < s.ignoreActivityUntil

/-- `restartIdleTimer`: clears any pending timer, then returns early when
auto-start is disabled, the window is unfocused, or a panel exists;
otherwise arms the timer for `getIdleMs()` milliseconds. -/
def restartIdleTimer (env : Env) (s : CtrlState) : CtrlState :=
  let s0 := { s with idleTimer := none }
  if !env.autoStart then s0
  else if !env.focused then s0
  else if s0.currentPanel.isSome then s0
  else { s0 with idleTimer := some (getIdleMs env.idleMinutesRaw) }

/-- `show(mode)`: resolves the mode, sets the ignore window, and creates the
panel or reveals/retitles the existing one; in both branches the panel ends
up displaying the resolved animation. -/
def showSaver (_env : Env) (now : Nat) (rand : ℚ) (mode : ScreenSaverMode)
    (s : CtrlState) : CtrlState :=
  let resolved := resolveScreenSaver mode rand
  let s1 := setIgnoreActivityFor now INTERNAL_ACTIVITY_IGNORE_MS s
  { s1 with currentPanel := some resolved }

/-- Body of the `setTimeout` callback armed by `restartIdleTimer`: clears
the handle, re-validates the three eligibility conditions against the
environment current at fire time, and when still eligible sets the ignore
window and shows the configured mode. -/
def idleTimerFire (env : Env) (now : Nat) (rand : ℚ) (s : CtrlState) : CtrlState :=
  let s0 := { s with idleTimer := none }
  if !env.autoStart then s0
  else if !env.focused then s0
  else if s0.currentPanel.isSome then s0
  else
    let s1 := setIgnoreActivityFor now INTERNAL_ACTIVITY_IGNORE_MS s0
    showSaver env now rand (getConfiguredMode env.modeRaw) s1

/-- `stopScreensaver`: a no-op without a panel; otherwise clears the panel
reference, sets the ignore window, disposes the panel (its `onDidDispose`
callback re-clears the already-empty reference and calls
`restartIdleTimer`), and re-arms the idle timer. -/
def stopScreensaver (env : Env) (now : Nat) (s : CtrlState) : CtrlState :=
  if s.currentPanel.isNone then s
  else
    let s1 := { s with currentPanel := none }
    let s2 := setIgnoreActivityFor now INTERNAL_ACTIVITY_IGNORE_MS s1
    restartIdleTimer env s2

/-- `handleUserActivity(bypassSuppression)`: drops the event inside the
ignore window unless bypassing; else stops a shown panel, or re-runs the
idle re-arm rule. -/
def handleUserActivity (env : Env) (now : Nat) (bypassSuppression : Bool)
    (s : CtrlState) : CtrlState :=
  if !bypassSuppression && isIgnoringActivity now s then s
  else if s.currentPanel.isSome then stopScreensaver env now s
  else restartIdleTimer env s

/-- Handler of the `otak-screensaver.toggleScreenSaver` command: stop when a
panel is shown, else show the configured mode. -/
def toggleScreenSaver (env : Env) (now : Nat) (rand : ℚ) (s : CtrlState) : CtrlState :=
  if s.currentPanel.isSome then stopScreensaver env now s
  else showSaver env now rand (getConfiguredMode env.modeRaw) s

/-- Teardown `vscode.Disposable` pushed into `context.subscriptions`: when
the subscription set is disposed it clears the pending idle timer and the
keep-alive interval.  No member of the subscription set disposes the
webview panel, so `currentPanel` is untouched. -/
def teardownDispose (s : CtrlState) : CtrlState :=
  { s with idleTimer := none, keepAliveTimer := none }

/-- JavaScript value arriving through `webview.onDidReceiveMessage`,
abstracting the runtime shapes the handler distinguishes: `undefined`,
`null`, booleans, finite numbers, NaN, strings, and objects given by their
property list. -/
inductive JsVal
  | undef
  | nullv
  | boolean (b : Bool)
  | number (q : ℚ)
  | nanv
  | string (s : String)
  | object (fields : List (String × JsVal))

/-- Property read `message.type`: the value of the first property named
`key`, or `undefined` when the object has none. -/
def jsField (fields : List (String × JsVal)) (key : String) : JsVal :=
  match fields.lookup key with
  | some v => v
  | none => JsVal.undef

/-- Strict-equality test `type === WEBVIEW_ACTIVITY_MESSAGE_TYPE`: true
exactly for the string equal to the fixed activity tag. -/
def JsVal.isActivityTag : JsVal → Bool
  | JsVal.string s => s = WEBVIEW_ACTIVITY_MESSAGE_TYPE
  | _ => false

/-- Predicate over inbound messages, following the spec's words: the
message is an object whose `type` field equals the fixed activity tag. -/
def isActivityMessage : JsVal → Bool
  | JsVal.object fields => (jsField fields "type").isActivityTag
  | _ => false

/-- The `onDidReceiveMessage` callback: returns early when the message is
falsy or not of runtime type object (in JavaScript only non-null objects
pass `message && typeof message === 'object'`), then invokes
`handleUserActivity(true)` exactly when `message.type` strictly equals the
activity tag. -/
def onWebviewMessage (env : Env) (now : Nat) (msg : JsVal) (s : CtrlState) : CtrlState :=
  match msg with
  | JsVal.object fields =>
      if (jsField fields "type").isActivityTag
      then handleUserActivity env now true s
      else s
  | _ => s

/-- State relevant to the keep-alive heartbeat: the in-flight flag
`sendingCodespacesKeepAlive` and the number of
`sendCodespacesKeepAliveHeartbeat` calls currently awaited. -/
structure HbState where
  sending : Bool
  running : Nat
deriving DecidableEq, Repr

/-- Events of the heartbeat process: a scheduled tick running the
synchronous prefix of `heartbeat` (guard check, flag set, call start), and
the completion of an awaited `sendCodespacesKeepAliveHeartbeat` call,
successful or failed. -/
inductive HbEvent
  | tick
  | complete (failed : Bool)
deriving DecidableEq, Repr

/-- Single-threaded step of the heartbeat process.  A tick returns
immediately when the in-flight flag is set, else sets it and starts one
call; a completion (the `finally` block runs on success and on failure)
clears the flag and retires the running call. -/
def hbStep (s : HbState) (e : HbEvent) : HbState :=
  match e with
  | HbEvent.tick =>
      if s.sending then s
      else { sending := true, running := s.running + 1 }
  | HbEvent.complete _ =>
      if s.running = 0 then s
      else { sending := false, running := s.running - 1 }

/-- Initial heartbeat state: flag clear, no call running. -/
def hbInit : HbState := { sending := false, running := 0 }

/-- State reached after a sequence of heartbeat events from the initial
state. -/
def hbRun (es : List HbEvent) : HbState := es.foldl hbStep hbInit

/-- Invariant of the heartbeat process: exactly one call runs while the
in-flight flag is set, none while it is clear. -/
def hbInv (s : HbState) : Prop := s.running = if s.sending then 1 else 0

/-- Configuration scope written by `config.update`
(`vscode.ConfigurationTarget`). -/
inductive ConfigTarget
  | global
  | workspace
  | workspaceFolder
deriving DecidableEq, Repr

/-- Result of `config.inspect('autoStart')`: the explicitly stored value in
each scope, `none` meaning not set there. -/
structure InspectResult where
  globalValue : Option Bool
  workspaceValue : Option Bool
  workspaceFolderValue : Option Bool
deriving DecidableEq, Repr

/-- Persistent state seen by `migrateSettings`: the stored
`settingsMigrationVersion` (absent on first run; `globalState.get` defaults
it to 0) and the configuration scopes of `autoStart` (`none` models
`config.inspect` returning `undefined`). -/
structure MigrationState where
  settingsMigrationVersion : Option Nat
  autoStartScopes : Option InspectResult
deriving DecidableEq, Repr

/-- Effect of `config.update(key, value, target)` on the scope record. -/
def configUpdate (ir : InspectResult) (t : ConfigTarget) (v : Bool) : InspectResult :=
  match t with
  | ConfigTarget.global => { ir with globalValue := some v }
  | ConfigTarget.workspace => { ir with workspaceValue := some v }
  | ConfigTarget.workspaceFolder => { ir with workspaceFolderValue := some v }

/-- Target list built by `overwriteSetting`: every scope with an explicit
value, in the order WorkspaceFolder, Workspace, Global; Global alone when
no scope has one. -/
def overwriteTargets (ir : InspectResult) : List ConfigTarget :=
  let t1 := if ir.workspaceFolderValue ≠ none then [ConfigTarget.workspaceFolder] else []
  let t2 := t1 ++ (if ir.workspaceValue ≠ none then [ConfigTarget.workspace] else [])
  let t3 := t2 ++ (if ir.globalValue ≠ none then [ConfigTarget.global] else [])
  if t3 = [] then [ConfigTarget.global] else t3

/-- `overwriteSetting(config, 'autoStart', value)`: a no-op when
`config.inspect` returns `undefined`; otherwise updates `value` into every
computed target.  Returns the new state together with the list of
`config.update` writes performed. -/
def overwriteSetting (s : MigrationState) (v : Bool) :
    MigrationState × List ConfigTarget :=
  match s.autoStartScopes with
  | none => (s, [])
  | some ir =>
      let targets := overwriteTargets ir
      ({ s with autoStartScopes :=
            some (targets.foldl (fun acc t => configUpdate acc t v) ir) },
       targets)

/-- `migrateSettings`: returns with no writes when the stored version
(defaulted to 0) already reached `SETTINGS_MIGRATION_VERSION`; otherwise
forces `autoStart` to `true` via `overwriteSetting` and advances the stored
version to the target.  Returns the new state and the configuration writes
performed. -/
def migrateSettings (s : MigrationState) : MigrationState × List ConfigTarget :=
  let current := s.settingsMigrationVersion.getD 0
  if SETTINGS_MIGRATION_VERSION ≤ current then (s, [])
  else
    let r := overwriteSetting s true
    ({ r.1 with settingsMigrationVersion := some SETTINGS_MIGRATION_VERSION }, r.2)

/-- Helper: `restartIdleTimer` only touches the timer handle; panel, ignore
window, keep-alive handle and heartbeat flag are unchanged. -/
theorem restartIdleTimer_fields (env : Env) (s : CtrlState) :
    (restartIdleTimer env s).currentPanel = s.currentPanel
    ∧ (restartIdleTimer env s).ignoreActivityUntil = s.ignoreActivityUntil
    ∧ (restartIdleTimer env s).keepAliveTimer = s.keepAliveTimer
    ∧ (restartIdleTimer env s).sendingCodespacesKeepAlive = s.sendingCodespacesKeepAlive := by
  simp only [restartIdleTimer]
  split_ifs <;> exact ⟨rfl, rfl, rfl, rfl⟩

/-- Helper: the timer handle after `restartIdleTimer` is armed for
`getIdleMs` exactly when auto-start is on, the window is focused and no
panel is shown. -/
theorem restartIdleTimer_idleTimer (env : Env) (s : CtrlState) :
    (restartIdleTimer env s).idleTimer
      = if env.autoStart && env.focused && s.currentPanel.isNone
        then some (getIdleMs env.idleMinutesRaw) else none := by
  simp only [restartIdleTimer]
  cases env.autoStart <;> cases env.focused <;> cases hp : s.currentPanel <;> simp [hp]

/-- Helper: stopping a shown panel leaves no panel. -/
theorem stopScreensaver_panel_none (env : Env) (now : Nat) (s : CtrlState)
    (h : s.currentPanel.isSome = true) :
    (stopScreensaver env now s).currentPanel = none := by
  cases hp : s.currentPanel with
  | none => rw [hp] at h; cases h
  | some i =>
      unfold stopScreensaver
      rw [hp]
      simpa using (restartIdleTimer_fields env _).1

/-- C4: for every stored numeric setting value that is not a number, not
finite, or ≤ 0, the accessor returns the documented default (5 for
`idleMinutes`, 3 for `codespacesKeepAliveIntervalMinutes`); every finite
value > 0 is returned unchanged. -/
theorem c4_numeric_setting_validation :
    (getIdleMinutes NumSetting.notNumber = 5
      ∧ getIdleMinutes NumSetting.nonFinite = 5
      ∧ getCodespacesKeepAliveIntervalMinutes NumSetting.notNumber = 3
      ∧ getCodespacesKeepAliveIntervalMinutes NumSetting.nonFinite = 3)
    ∧ (∀ q : ℚ, q ≤ 0 →
        getIdleMinutes (NumSetting.num q) = 5
        ∧ getCodespacesKeepAliveIntervalMinutes (NumSetting.num q) = 3)
    ∧ (∀ q : ℚ, 0 < q →
        getIdleMinutes (NumSetting.num q) = q
        ∧ getCodespacesKeepAliveIntervalMinutes (NumSetting.num q) = q) := by
  refine ⟨⟨rfl, rfl, rfl, rfl⟩, fun q hq => ?_, fun q hq => ?_⟩
  · simp [getIdleMinutes, getCodespacesKeepAliveIntervalMinutes,
      CODESPACES_KEEPALIVE_DEFAULT_INTERVAL_MINUTES, hq]
  · simp [getIdleMinutes, getCodespacesKeepAliveIntervalMinutes,
      CODESPACES_KEEPALIVE_DEFAULT_INTERVAL_MINUTES, not_le.mpr hq]

/-- Witness for C4 at the concrete stored values -2 and 7/2. -/
theorem c4_witness :
    ((-2 : ℚ) ≤ 0 ∧ getIdleMinutes (NumSetting.num (-2)) = 5
      ∧ getCodespacesKeepAliveIntervalMinutes (NumSetting.num (-2)) = 3)
    ∧ ((0 : ℚ) < 7/2 ∧ getIdleMinutes (NumSetting.num (7/2)) = 7/2
      ∧ getCodespacesKeepAliveIntervalMinutes (NumSetting.num (7/2)) = 7/2) :=
  ⟨⟨by norm_num,
    (c4_numeric_setting_validation.2.1 (-2) (by norm_num)).1,
    (c4_numeric_setting_validation.2.1 (-2) (by norm_num)).2⟩,
   ⟨by norm_num,
    (c4_numeric_setting_validation.2.2 (7/2) (by norm_num)).1,
    (c4_numeric_setting_validation.2.2 (7/2) (by norm_num)).2⟩⟩

/-- C10: calling `stopScreensaver` with no panel shown is a complete no-op:
the whole state, including the ignore-window timestamp, the idle timer and
the panel reference, is unchanged. -/
theorem c10_stop_without_panel_noop (env : Env) (now : Nat) (s : CtrlState)
    (h : s.currentPanel = none) : stopScreensaver env now s = s := by
  simp [stopScreensaver, h]

/-- Witness for C10 at a concrete state carrying an armed idle timer and a
nonzero ignore-window timestamp. -/
theorem c10_witness :
    stopScreensaver
      ⟨true, true, "random", NumSetting.missing, true, NumSetting.missing, false⟩ 1000
      ⟨none, some 300000, 42, some 180000, false⟩
      = ⟨none, some 300000, 42, some 180000, false⟩ :=
  c10_stop_without_panel_noop _ _ _ rfl

/-- C3 counterexample: disposing the subscription set runs the teardown
disposable, which clears both timers but leaves a shown panel in place —
the panel is not disposed, contradicting the claim. -/
theorem c3_counterexample :
    (teardownDispose
        ⟨some ScreenSaverId.beziers, some 300000, 0, some 180000, false⟩).currentPanel
      = some ScreenSaverId.beziers
    ∧ (teardownDispose
        ⟨some ScreenSaverId.beziers, some 300000, 0, some 180000, false⟩).idleTimer = none
    ∧ (teardownDispose
        ⟨some ScreenSaverId.beziers, some 300000, 0, some 180000, false⟩).keepAliveTimer = none :=
  ⟨rfl, rfl, rfl⟩

/-- C3 amended: disposing the extension's subscription set cancels any
pending idle timer and any running keep-alive interval; a shown panel is
not disposed by the subscription set (the panel reference is untouched). -/
theorem c3_teardown_amended (s : CtrlState) :
    (teardownDispose s).idleTimer = none
    ∧ (teardownDispose s).keepAliveTimer = none
    ∧ (teardownDispose s).currentPanel = s.currentPanel :=
  ⟨rfl, rfl, rfl⟩

/-- C7: the toggle command stops the panel whenever one is shown, and shows
the configured mode (after resolution) whenever none is shown. -/
theorem c7_toggle_command (env : Env) (now : Nat) (rand : ℚ) (s : CtrlState) :
    (s.currentPanel.isSome = true →
      toggleScreenSaver env now rand s = stopScreensaver env now s
      ∧ (toggleScreenSaver env now rand s).currentPanel = none)
    ∧ (s.currentPanel = none →
      toggleScreenSaver env now rand s
        = showSaver env now rand (getConfiguredMode env.modeRaw) s
      ∧ (toggleScreenSaver env now rand s).currentPanel
        = some (resolveScreenSaver (getConfiguredMode env.modeRaw) rand)) := by
  constructor
  · intro h
    refine ⟨by simp [toggleScreenSaver, h], ?_⟩
    simp only [toggleScreenSaver, h, if_true]
    exact stopScreensaver_panel_none env now s h
  · intro h
    have hs : s.currentPanel.isSome = false := by simp [h]
    exact ⟨by simp [toggleScreenSaver, hs],
      by simp [toggleScreenSaver, hs, showSaver, setIgnoreActivityFor]⟩

/-- Witness for C7: toggling with a shown panel stops it; toggling from the
empty state opens the configured mode. -/
theorem c7_witness :
    ((some ScreenSaverId.mystify : Option ScreenSaverId).isSome = true
      ∧ (toggleScreenSaver
          ⟨true, true, "beziers", NumSetting.missing, true, NumSetting.missing, false⟩ 1000 0
          ⟨some ScreenSaverId.mystify, none, 0, none, false⟩).currentPanel = none)
    ∧ (toggleScreenSaver
          ⟨true, true, "beziers", NumSetting.missing, true, NumSetting.missing, false⟩ 1000 0
          ⟨none, none, 0, none, false⟩).currentPanel
        = some (resolveScreenSaver (getConfiguredMode "beziers") 0) :=
  ⟨⟨rfl,
    ((c7_toggle_command
        ⟨true, true, "beziers", NumSetting.missing, true, NumSetting.missing, false⟩ 1000 0
        ⟨some ScreenSaverId.mystify, none, 0, none, false⟩).1 rfl).2⟩,
   ((c7_toggle_command
        ⟨true, true, "beziers", NumSetting.missing, true, NumSetting.missing, false⟩ 1000 0
        ⟨none, none, 0, none, false⟩).2 rfl).2⟩

/-- C2: an activity event with suppression active (current time strictly
before the ignore-window timestamp, not bypassing) is dropped with no state
change; at or after the boundary, or when bypassing, a shown panel is
stopped and otherwise the idle re-arm rule runs. -/
theorem c2_handle_user_activity (env : Env) (now : Nat) (s : CtrlState) :
    (now < s.ignoreActivityUntil → handleUserActivity env now false s = s)
    ∧ (s.ignoreActivityUntil ≤ now →
        (s.currentPanel.isSome = true →
          handleUserActivity env now false s = stopScreensaver env now s
          ∧ (handleUserActivity env now false s).currentPanel = none)
        ∧ (s.currentPanel = none →
          handleUserActivity env now false s = restartIdleTimer env s))
    ∧ (s.currentPanel.isSome = true →
        handleUserActivity env now true s = stopScreensaver env now s
        ∧ (handleUserActivity env now true s).currentPanel = none)
    ∧ (s.currentPanel = none →
        handleUserActivity env now true s = restartIdleTimer env s) := by
  refine ⟨fun hlt => ?_, fun hge => ⟨fun hp => ?_, fun hp => ?_⟩,
    fun hp => ?_, fun hp => ?_⟩
  · simp [handleUserActivity, isIgnoringActivity, hlt]
  · have he : handleUserActivity env now false s = stopScreensaver env now s := by
      simp [handleUserActivity, isIgnoringActivity, Nat.not_lt.mpr hge, hp]
    exact ⟨he, he ▸ stopScreensaver_panel_none env now s hp⟩
  · simp [handleUserActivity, isIgnoringActivity, Nat.not_lt.mpr hge, hp]
  · have he : handleUserActivity env now true s = stopScreensaver env now s := by
      simp [handleUserActivity, hp]
    exact ⟨he, he ▸ stopScreensaver_panel_none env now s hp⟩
  · simp [handleUserActivity, hp]

/-- Witness for C2: at time 100 with ignore window until 600 the event is
dropped; at time 600 it stops the shown panel; with no panel it re-arms. -/
theorem c2_witness :
    ((100 : Nat) < 600
      ∧ handleUserActivity
          ⟨true, true, "random", NumSetting.missing, true, NumSetting.missing, false⟩ 100 false
          ⟨some ScreenSaverId.beziers, none, 600, none, false⟩
        = ⟨some ScreenSaverId.beziers, none, 600, none, false⟩)
    ∧ ((600 : Nat) ≤ 600
      ∧ (handleUserActivity
          ⟨true, true, "random", NumSetting.missing, true, NumSetting.missing, false⟩ 600 false
          ⟨some ScreenSaverId.beziers, none, 600, none, false⟩).currentPanel = none)
    ∧ handleUserActivity
          ⟨true, true, "random", NumSetting.missing, true, NumSetting.missing, false⟩ 600 false
          ⟨none, none, 600, none, false⟩
        = restartIdleTimer
            ⟨true, true, "random", NumSetting.missing, true, NumSetting.missing, false⟩
            ⟨none, none, 600, none, false⟩ :=
  ⟨⟨by norm_num,
    (c2_handle_user_activity
        ⟨true, true, "random", NumSetting.missing, true, NumSetting.missing, false⟩ 100
        ⟨some ScreenSaverId.beziers, none, 600, none, false⟩).1 (by norm_num)⟩,
   ⟨le_refl 600,
    (((c2_handle_user_activity
        ⟨true, true, "random", NumSetting.missing, true, NumSetting.missing, false⟩ 600
        ⟨some ScreenSaverId.beziers, none, 600, none, false⟩).2.1 (le_refl 600)).1 rfl).2⟩,
   ((c2_handle_user_activity
        ⟨true, true, "random", NumSetting.missing, true, NumSetting.missing, false⟩ 600
        ⟨none, none, 600, none, false⟩).2.1 (le_refl 600)).2 rfl⟩

/-- C1 counterexample: with `idleMinutes` stored as the valid finite
positive value 1/2 and all three eligibility conditions holding,
`restartIdleTimer` arms the timer for 60000 ms (because `getIdleMs` clamps
the minutes below at 1), not for `idleMinutes × 60000 = 30000` ms as the
claim states. -/
theorem c1_counterexample :
    (restartIdleTimer
        ⟨true, true, "random", NumSetting.num (1/2), true, NumSetting.missing, false⟩
        ⟨none, none, 0, none, false⟩).idleTimer = some 60000
    ∧ getIdleMinutes (NumSetting.num (1/2)) * 60000 = 30000
    ∧ (60000 : ℚ) ≠ 30000 := by
  refine ⟨?_, by norm_num [getIdleMinutes], by norm_num⟩
  norm_num [restartIdleTimer, getIdleMs, getIdleMinutes]

/-- C1 amended: every call to `restartIdleTimer` cancels any pending timer
and arms a new one for exactly `max 1 idleMinutes × 60000` ms if and only
if auto-start is enabled, the window is focused and no panel is shown
(leaving it disarmed otherwise, and touching no other state); when the
armed timer fires, the panel opens with the configured mode if and only if
the same three conditions hold against the environment current at fire
time (`envF`), the state being otherwise unchanged save the cleared timer
handle. -/
theorem c1_restart_and_fire_amended (envA envF : Env) (s : CtrlState)
    (now : Nat) (rand : ℚ) :
    ((restartIdleTimer envA s).idleTimer
        = if envA.autoStart && envA.focused && s.currentPanel.isNone
          then some (max 1 (getIdleMinutes envA.idleMinutesRaw) * 60000) else none)
    ∧ (restartIdleTimer envA s).currentPanel = s.currentPanel
    ∧ (restartIdleTimer envA s).ignoreActivityUntil = s.ignoreActivityUntil
    ∧ ((envF.autoStart && envF.focused && s.currentPanel.isNone) = true →
        (idleTimerFire envF now rand s).currentPanel
          = some (resolveScreenSaver (getConfiguredMode envF.modeRaw) rand)
        ∧ (idleTimerFire envF now rand s).idleTimer = none
        ∧ (idleTimerFire envF now rand s).ignoreActivityUntil
            = now + INTERNAL_ACTIVITY_IGNORE_MS)
    ∧ ((envF.autoStart && envF.focused && s.currentPanel.isNone) = false →
        idleTimerFire envF now rand s = { s with idleTimer := none }) := by
  refine ⟨?_, (restartIdleTimer_fields envA s).1,
    (restartIdleTimer_fields envA s).2.1, fun he => ?_, fun he => ?_⟩
  · rw [restartIdleTimer_idleTimer envA s, getIdleMs]
  · have ha : envF.autoStart = true := by
      cases h : envF.autoStart <;> simp [h] at he ⊢
    have hf : envF.focused = true := by
      cases h : envF.focused <;> simp [h, ha] at he ⊢
    have hp : s.currentPanel = none := by
      cases h : s.currentPanel <;> simp [h, ha, hf] at he ⊢
    simp [idleTimerFire, ha, hf, hp, showSaver, setIgnoreActivityFor]
  · simp only [idleTimerFire]
    cases ha : envF.autoStart <;> simp [ha] at he ⊢
    cases hf : envF.focused <;> simp [hf] at he ⊢
    cases hp : s.currentPanel <;> simp [hp] at he ⊢

/-- Witness for C1 (amended): a fully eligible fire at time 1000 with mode
`mystify` opens the panel and sets the ignore window to 1500, and an
unfocused fire changes nothing but the cleared timer handle. -/
theorem c1_witness :
    ((true && true && (none : Option ScreenSaverId).isNone) = true
      ∧ (idleTimerFire
          ⟨true, true, "mystify", NumSetting.missing, true, NumSetting.missing, false⟩ 1000 0
          ⟨none, some 300000, 0, none, false⟩).currentPanel
        = some (resolveScreenSaver (getConfiguredMode "mystify") 0))
    ∧ ((true && false && (none : Option ScreenSaverId).isNone) = false
      ∧ idleTimerFire
          ⟨true, false, "mystify", NumSetting.missing, true, NumSetting.missing, false⟩ 1000 0
          ⟨none, some 300000, 0, none, false⟩
        = ⟨none, none, 0, none, false⟩) :=
  ⟨⟨rfl,
    ((c1_restart_and_fire_amended
        ⟨true, true, "mystify", NumSetting.missing, true, NumSetting.missing, false⟩
        ⟨true, true, "mystify", NumSetting.missing, true, NumSetting.missing, false⟩
        ⟨none, some 300000, 0, none, false⟩ 1000 0).2.2.2.1 rfl).1⟩,
   ⟨rfl,
    (c1_restart_and_fire_amended
        ⟨true, false, "mystify", NumSetting.missing, true, NumSetting.missing, false⟩
        ⟨true, false, "mystify", NumSetting.missing, true, NumSetting.missing, false⟩
        ⟨none, some 300000, 0, none, false⟩ 1000 0).2.2.2.2 rfl⟩⟩

/-- C8: the webview message handler invokes the activity handler with
suppression bypassed exactly when the inbound value is an object whose
`type` field equals the fixed activity tag; every other value leaves the
state unchanged (and, being a total function, raises no error). -/
theorem c8_webview_message (env : Env) (now : Nat) (msg : JsVal) (s : CtrlState) :
    (isActivityMessage msg = true →
      onWebviewMessage env now msg s = handleUserActivity env now true s)
    ∧ (isActivityMessage msg = false → onWebviewMessage env now msg s = s) := by
  cases msg with
  | object fields =>
      constructor <;> intro h <;>
        simp only [isActivityMessage] at h <;>
        simp [onWebviewMessage, h]
  | undef => exact ⟨fun h => Bool.noConfusion h, fun _ => rfl⟩
  | nullv => exact ⟨fun h => Bool.noConfusion h, fun _ => rfl⟩
  | boolean b => exact ⟨fun h => Bool.noConfusion h, fun _ => rfl⟩
  | number q => exact ⟨fun h => Bool.noConfusion h, fun _ => rfl⟩
  | nanv => exact ⟨fun h => Bool.noConfusion h, fun _ => rfl⟩
  | string t => exact ⟨fun h => Bool.noConfusion h, fun _ => rfl⟩

/-- Witness for C8: a well-formed activity message triggers the bypassing
activity handler; `null`, a plain number and an object with a wrong `type`
are ignored. -/
theorem c8_witness :
    (isActivityMessage
        (JsVal.object [("type", JsVal.string "otakScreensaver.userActivity")]) = true
      ∧ onWebviewMessage
          ⟨true, true, "random", NumSetting.missing, true, NumSetting.missing, false⟩ 7
          (JsVal.object [("type", JsVal.string "otakScreensaver.userActivity")])
          ⟨some ScreenSaverId.beziers, none, 900, none, false⟩
        = handleUserActivity
            ⟨true, true, "random", NumSetting.missing, true, NumSetting.missing, false⟩ 7 true
            ⟨some ScreenSaverId.beziers, none, 900, none, false⟩)
    ∧ (isActivityMessage JsVal.nullv = false
      ∧ onWebviewMessage
          ⟨true, true, "random", NumSetting.missing, true, NumSetting.missing, false⟩ 7
          JsVal.nullv ⟨some ScreenSaverId.beziers, none, 900, none, false⟩
        = ⟨some ScreenSaverId.beziers, none, 900, none, false⟩)
    ∧ (isActivityMessage (JsVal.object [("type", JsVal.string "other")]) = false
      ∧ onWebviewMessage
          ⟨true, true, "random", NumSetting.missing, true, NumSetting.missing, false⟩ 7
          (JsVal.object [("type", JsVal.string "other")])
          ⟨some ScreenSaverId.beziers, none, 900, none, false⟩
        = ⟨some ScreenSaverId.beziers, none, 900, none, false⟩) :=
  ⟨⟨by decide,
    (c8_webview_message
        ⟨true, true, "random", NumSetting.missing, true, NumSetting.missing, false⟩ 7
        (JsVal.object [("type", JsVal.string "otakScreensaver.userActivity")])
        ⟨some ScreenSaverId.beziers, none, 900, none, false⟩).1 (by decide)⟩,
   ⟨rfl,
    (c8_webview_message
        ⟨true, true, "random", NumSetting.missing, true, NumSetting.missing, false⟩ 7
        JsVal.nullv ⟨some ScreenSaverId.beziers, none, 900, none, false⟩).2 rfl⟩,
   ⟨by decide,
    (c8_webview_message
        ⟨true, true, "random", NumSetting.missing, true, NumSetting.missing, false⟩ 7
        (JsVal.object [("type", JsVal.string "other")])
        ⟨some ScreenSaverId.beziers, none, 900, none, false⟩).2 (by decide)⟩⟩

/-- Helper: each heartbeat step preserves the in-flight invariant. -/
theorem hbStep_preserves_inv (s : HbState) (e : HbEvent) (h : hbInv s) :
    hbInv (hbStep s e) := by
  simp only [hbInv] at h
  cases e with
  | tick =>
      cases hs : s.sending with
      | true => simpa [hbInv, hbStep, hs] using h
      | false =>
          simp [hs] at h
          simp [hbInv, hbStep, hs, h]
  | complete f =>
      cases hs : s.sending with
      | true =>
          simp [hs] at h
          simp [hbInv, hbStep, h]
      | false =>
          simp [hs] at h
          simp [hbInv, hbStep, hs, h]

/-- Helper: every state reachable by a heartbeat event sequence satisfies
the in-flight invariant. -/
theorem hbRun_inv (es : List HbEvent) : hbInv (hbRun es) := by
  have general : ∀ (l : List HbEvent) (s : HbState), hbInv s → hbInv (l.foldl hbStep s) := by
    intro l
    induction l with
    | nil => exact fun s h => h
    | cons e t ih => exact fun s h => ih (hbStep s e) (hbStep_preserves_inv s e h)
  exact general es hbInit rfl

/-- C9: a heartbeat tick arriving while the in-flight flag is set returns
without starting a second call; completion of the running call (successful
or failed) clears the flag; and along every event sequence from the
initial state at most one heartbeat call is ever in flight. -/
theorem c9_heartbeat_guard :
    (∀ s : HbState, s.sending = true → hbStep s HbEvent.tick = s)
    ∧ (∀ (s : HbState) (f : Bool), 0 < s.running →
        (hbStep s (HbEvent.complete f)).sending = false
        ∧ (hbStep s (HbEvent.complete f)).running = s.running - 1)
    ∧ (∀ es : List HbEvent, (hbRun es).running ≤ 1) := by
  refine ⟨fun s h => by simp [hbStep, h], fun s f h => ?_, fun es => ?_⟩
  · have hr : ¬ s.running = 0 := Nat.pos_iff_ne_zero.mp h
    exact ⟨by simp [hbStep, hr], by simp [hbStep, hr]⟩
  · have h := hbRun_inv es
    simp only [hbInv] at h
    rw [h]
    cases (hbRun es).sending <;> simp

/-- Witness for C9: a tick during an in-flight call is a no-op, a failed
completion clears the flag, and a concrete four-event trace with a double
tick keeps at most one call running. -/
theorem c9_witness :
    ((HbState.mk true 1).sending = true ∧ hbStep ⟨true, 1⟩ HbEvent.tick = ⟨true, 1⟩)
    ∧ (0 < (HbState.mk true 1).running
        ∧ (hbStep ⟨true, 1⟩ (HbEvent.complete true)).sending = false)
    ∧ (hbRun [HbEvent.tick, HbEvent.tick, HbEvent.complete false, HbEvent.tick]).running ≤ 1 :=
  ⟨⟨rfl, c9_heartbeat_guard.1 ⟨true, 1⟩ rfl⟩,
   ⟨Nat.zero_lt_one, (c9_heartbeat_guard.2.1 ⟨true, 1⟩ true Nat.zero_lt_one).1⟩,
   c9_heartbeat_guard.2.2 [HbEvent.tick, HbEvent.tick, HbEvent.complete false, HbEvent.tick]⟩

/-- Helper: migration with the stored version already at or above the
target returns the state unchanged and performs no writes. -/
theorem migrateSettings_at_target (t : MigrationState)
    (h : SETTINGS_MIGRATION_VERSION ≤ t.settingsMigrationVersion.getD 0) :
    migrateSettings t = (t, []) := by
  simp [migrateSettings, h]

/-- C6: with the stored migration version (defaulted to 0) below the
target, activation's migration sets every configuration scope that had an
explicit `autoStart` value to `true`, advances the stored version to the
target, and a re-run performs no configuration writes; with the version at
or above the target migration changes nothing and performs no writes. -/
theorem c6_migration (s : MigrationState) :
    (s.settingsMigrationVersion.getD 0 < SETTINGS_MIGRATION_VERSION →
      (migrateSettings s).1.settingsMigrationVersion = some SETTINGS_MIGRATION_VERSION
      ∧ (∀ ir : InspectResult, s.autoStartScopes = some ir →
          ∃ ir' : InspectResult, (migrateSettings s).1.autoStartScopes = some ir'
            ∧ (ir.globalValue ≠ none → ir'.globalValue = some true)
            ∧ (ir.workspaceValue ≠ none → ir'.workspaceValue = some true)
            ∧ (ir.workspaceFolderValue ≠ none → ir'.workspaceFolderValue = some true))
      ∧ migrateSettings (migrateSettings s).1 = ((migrateSettings s).1, []))
    ∧ (SETTINGS_MIGRATION_VERSION ≤ s.settingsMigrationVersion.getD 0 →
        migrateSettings s = (s, [])) := by
  constructor
  · intro hlt
    have hnot : ¬ SETTINGS_MIGRATION_VERSION ≤ s.settingsMigrationVersion.getD 0 :=
      Nat.not_le.mpr hlt
    refine ⟨?_, ?_, ?_⟩
    · simp [migrateSettings, hnot]
    · intro ir hir
      refine ⟨(overwriteTargets ir).foldl (fun acc t => configUpdate acc t true) ir, ?_, ?_⟩
      · simp [migrateSettings, hnot, overwriteSetting, hir]
      · obtain ⟨g, w, f⟩ := ir
        cases g <;> cases w <;> cases f <;>
          simp [overwriteTargets, configUpdate]
    · have hv : (migrateSettings s).1.settingsMigrationVersion
          = some SETTINGS_MIGRATION_VERSION := by
        simp [migrateSettings, hnot]
      exact migrateSettings_at_target _ (by rw [hv]; exact le_refl _)
  · exact fun hge => migrateSettings_at_target s hge

/-- Witness for C6: starting from no stored version with `autoStart`
explicitly set globally and in the workspace folder, migration forces both
scopes to `true` and bumps the version; a state already at the target is
untouched. -/
theorem c6_witness :
    ((none : Option Nat).getD 0 < SETTINGS_MIGRATION_VERSION
      ∧ (migrateSettings ⟨none, some ⟨some false, none, some false⟩⟩).1.settingsMigrationVersion
          = some SETTINGS_MIGRATION_VERSION
      ∧ migrateSettings (migrateSettings ⟨none, some ⟨some false, none, some false⟩⟩).1
          = ((migrateSettings ⟨none, some ⟨some false, none, some false⟩⟩).1, []))
    ∧ (SETTINGS_MIGRATION_VERSION ≤ (some 1 : Option Nat).getD 0
      ∧ migrateSettings ⟨some 1, some ⟨some false, none, some false⟩⟩
          = (⟨some 1, some ⟨some false, none, some false⟩⟩, [])) :=
  ⟨⟨Nat.zero_lt_one,
    ((c6_migration ⟨none, some ⟨some false, none, some false⟩⟩).1 Nat.zero_lt_one).1,
    ((c6_migration ⟨none, some ⟨some false, none, some false⟩⟩).1 Nat.zero_lt_one).2.2⟩,
   ⟨le_refl 1,
    (c6_migration ⟨some 1, some ⟨some false, none, some false⟩⟩).2 (le_refl 1)⟩⟩

/-- Helper: for `Math.random()` output in `[0, 1)` the floor of `rand * 3`
is 0, 1 or 2. -/
theorem random_floor_cases (r : ℚ) (h0 : 0 ≤ r) (h1 : r < 1) :
    ⌊r * 3⌋ = 0 ∨ ⌊r * 3⌋ = 1 ∨ ⌊r * 3⌋ = 2 := by
  have ha : (0 : ℤ) ≤ ⌊r * 3⌋ := Int.floor_nonneg.mpr (by linarith)
  have hb : ⌊r * 3⌋ < 3 := by
    apply Int.floor_lt.mpr
    push_cast
    linarith
  omega

/-- C5: every unrecognised configured mode string falls back to `random`;
`resolveScreenSaver` always yields one of the three registered animations,
returns a concrete mode unchanged, and resolves `random` by a uniform
choice: the three animations are selected on the equal-length thirds of
the `Math.random()` range `[0, 1)`. -/
theorem c5_mode_resolution :
    (∀ m : String, m ≠ "beziers" → m ≠ "mystify" → m ≠ "flyingWindows" →
        m ≠ "random" → getConfiguredMode m = ScreenSaverMode.random)
    ∧ (∀ (i : ScreenSaverId) (r : ℚ), resolveScreenSaver (ScreenSaverMode.id i) r = i)
    ∧ (∀ (mode : ScreenSaverMode) (r : ℚ), 0 ≤ r → r < 1 →
        resolveScreenSaver mode r ∈ SCREENSAVER_IDS)
    ∧ (∀ r : ℚ, 0 ≤ r → r < 1 →
        (resolveScreenSaver ScreenSaverMode.random r = ScreenSaverId.beziers ↔ r < 1/3)
        ∧ (resolveScreenSaver ScreenSaverMode.random r = ScreenSaverId.mystify
            ↔ 1/3 ≤ r ∧ r < 2/3)
        ∧ (resolveScreenSaver ScreenSaverMode.random r = ScreenSaverId.flyingWindows
            ↔ 2/3 ≤ r)) := by
  refine ⟨fun m h1 h2 h3 h4 => by simp [getConfiguredMode, h1, h2, h3, h4],
    fun i r => rfl, fun mode r h0 h1 => ?_, fun r h0 h1 => ?_⟩
  · cases mode with
    | id i => cases i <;> simp [resolveScreenSaver, SCREENSAVER_IDS]
    | random =>
        rcases random_floor_cases r h0 h1 with hk | hk | hk <;>
          simp [resolveScreenSaver, hk, SCREENSAVER_IDS]
  · rcases random_floor_cases r h0 h1 with hk | hk | hk
    · obtain ⟨hl, hu⟩ := Int.floor_eq_iff.mp hk
      push_cast at hl hu
      have hres : resolveScreenSaver ScreenSaverMode.random r = ScreenSaverId.beziers := by
        simp [resolveScreenSaver, hk, SCREENSAVER_IDS]
      rw [hres]
      refine ⟨⟨fun _ => by linarith, fun _ => rfl⟩, ⟨?_, ?_⟩, ⟨?_, ?_⟩⟩
      · intro h; exact ScreenSaverId.noConfusion h
      · intro h; exfalso; linarith [h.1]
      · intro h; exact ScreenSaverId.noConfusion h
      · intro h; exfalso; linarith
    · obtain ⟨hl, hu⟩ := Int.floor_eq_iff.mp hk
      push_cast at hl hu
      have hres : resolveScreenSaver ScreenSaverMode.random r = ScreenSaverId.mystify := by
        simp [resolveScreenSaver, hk, SCREENSAVER_IDS]
      rw [hres]
      refine ⟨⟨?_, ?_⟩, ⟨fun _ => ⟨by linarith, by linarith⟩, fun _ => rfl⟩, ⟨?_, ?_⟩⟩
      · intro h; exact ScreenSaverId.noConfusion h
      · intro h; exfalso; linarith
      · intro h; exact ScreenSaverId.noConfusion h
      · intro h; exfalso; linarith
    · obtain ⟨hl, hu⟩ := Int.floor_eq_iff.mp hk
      push_cast at hl hu
      have hres : resolveScreenSaver ScreenSaverMode.random r
          = ScreenSaverId.flyingWindows := by
        simp [resolveScreenSaver, hk, SCREENSAVER_IDS]
      rw [hres]
      refine ⟨⟨?_, ?_⟩, ⟨?_, ?_⟩, ⟨fun _ => by linarith, fun _ => rfl⟩⟩
      · intro h; exact ScreenSaverId.noConfusion h
      · intro h; exfalso; linarith
      · intro h; exact ScreenSaverId.noConfusion h
      · intro h; exfalso; linarith [h.2]

/-- Witness for C5: the unrecognised mode string "diagonal" resolves to
`random`; concrete rand values in each third pick each animation. -/
theorem c5_witness :
    getConfiguredMode "diagonal" = ScreenSaverMode.random
    ∧ resolveScreenSaver ScreenSaverMode.random (1/6) = ScreenSaverId.beziers
    ∧ resolveScreenSaver ScreenSaverMode.random (1/2) = ScreenSaverId.mystify
    ∧ resolveScreenSaver ScreenSaverMode.random (5/6) = ScreenSaverId.flyingWindows :=
  ⟨c5_mode_resolution.1 "diagonal" (by decide) (by decide) (by decide) (by decide),
   ((c5_mode_resolution.2.2.2 (1/6) (by norm_num) (by norm_num)).1).mpr (by norm_num),
   ((c5_mode_resolution.2.2.2 (1/2) (by norm_num) (by norm_num)).2.1).mpr
     (by constructor <;> norm_num),
   ((c5_mode_resolution.2.2.2 (5/6) (by norm_num) (by norm_num)).2.2).mpr (by norm_num)⟩

end OtakScreensaver
